import Mathlib

/-!
Verification of the simple-rdbms storage engine (page format, file manager,
table access layer) against its specification.

The development shallowly embeds the three Python source modules:
  * `src/storage/page.py`      — `Page` with insert/get/update/delete,
    free-space accounting, `serialize`/`deserialize` (struct-packed header,
    length-prefixed JSON rows, zero padding to `PAGE_SIZE`);
  * `src/storage/file_manager.py` — `read_page` over a byte-level file image;
  * `src/storage/table.py`     — `Column.validate_value` and the `Table`
    CRUD methods, with Python runtime faults (AttributeError on a never-assigned
    attribute, NameError on an undefined local) made explicit in an `Except`.

Python values are a tagged variant (`PyVal`), rows are ordered string-keyed
dictionaries, and `json.dumps` / `json.loads` are modelled for the ASCII
flat-object subset the engine actually stores (ensure_ascii output with the
default ", " / ": " separators; a trailing non-whitespace byte after the
parsed object is the "Extra data" error, as in CPython's json module).
-/

namespace SimpleRDBMS

/-- A Python scalar value as stored in a row: one of INTEGER, TEXT, REAL,
BOOLEAN or null.  `bool` is kept distinct from `int` because Python's
`bool` is a subclass of `int`, which matters for `isinstance` checks.
The `float` constructor carries its decimal literal text (floats are never
produced by the claims' inputs; the carrier keeps `isinstance` totality). -/
inductive PyVal where
  | none
  | bool (b : Bool)
  | int (n : Int)
  | float (lit : String)
  | str (s : String)
deriving DecidableEq, Repr

/-- Python `isinstance(v, int)`: true for `int` and for `bool`
(Python's `bool` is a subclass of `int`). -/
def pyIsInstInt : PyVal → Bool
  | .bool _ => true
  | .int _ => true
  | _ => false

/-- Python `isinstance(v, str)`. -/
def pyIsInstStr : PyVal → Bool
  | .str _ => true
  | _ => false

/-- Python `isinstance(v, (int, float))`: true for `int`, `float` and `bool`. -/
def pyIsInstIntOrFloat : PyVal → Bool
  | .bool _ => true
  | .int _ => true
  | .float _ => true
  | _ => false

/-- Python `isinstance(v, bool)`. -/
def pyIsInstBool : PyVal → Bool
  | .bool _ => true
  | _ => false

/-- A row: a Python `dict` from column name to value, with insertion order
(the key order `json.dumps` serializes). Keys are unique by construction. -/
abbrev Row := List (String × PyVal)

/-- Python `d[k]` as an `Option` (`none` = the key is absent / KeyError). -/
def rowGet (r : Row) (k : String) : Option PyVal :=
  (r.find? (fun kv => kv.1 = k)).map (fun kv => kv.2)

/-- Python `d[k] = v` on an ordered dict: replace in place if the key exists,
else append at the end. -/
def dictSet (r : Row) (k : String) (v : PyVal) : Row :=
  if r.any (fun kv => kv.1 = k) then
    r.map (fun kv => if kv.1 = k then (k, v) else kv)
  else r ++ [(k, v)]

/-- Python `d.update(u)`: apply every binding of `u` to `d` in order. -/
def dictUpdate (r : Row) (u : Row) : Row :=
  u.foldl (fun acc kv => dictSet acc kv.1 kv.2) r

/-- Hex digit character for `n < 16` (lowercase, as CPython's json emits). -/
def hexDigit (n : Nat) : Char :=
  if n < 10 then Char.ofNat (48 + n) else Char.ofNat (87 + n)

/-- `\uXXXX` escape for a 16-bit code unit. -/
def uEscape (n : Nat) : String :=
  String.mk ['\\', 'u', hexDigit (n / 4096 % 16), hexDigit (n / 256 % 16),
             hexDigit (n / 16 % 16), hexDigit (n % 16)]

/-- How CPython's `json.dumps` (ensure_ascii=True) escapes one character of a
string: named escapes for the common controls, `\uXXXX` for other controls and
all non-ASCII characters (astral-plane characters become surrogate pairs). -/
def jsonEscapeChar (c : Char) : String :=
  if c = '"' then "\\\""
  else if c = '\\' then "\\\\"
  else if c = '\n' then "\\n"
  else if c = '\t' then "\\t"
  else if c = '\r' then "\\r"
  else if c.toNat = 8 then "\\b"
  else if c.toNat = 12 then "\\f"
  else if c.toNat < 32 then uEscape c.toNat
  else if c.toNat < 127 then String.singleton c
  else if c.toNat < 65536 then uEscape c.toNat
  else
    uEscape (55296 + (c.toNat - 65536) / 1024) ++ uEscape (56320 + (c.toNat - 65536) % 1024)

/-- `json.dumps` of a Python string (quoted, escaped, pure ASCII output). -/
def jsonDumpStr (s : String) : String :=
  "\"" ++ String.join (s.toList.map jsonEscapeChar) ++ "\""

/-- `json.dumps` of one scalar value.  Integers print as their decimal text,
floats as their literal, matching CPython. -/
def jsonDumpVal : PyVal → String
  | .none => "null"
  | .bool true => "true"
  | .bool false => "false"
  | .int n => toString n
  | .float lit => lit
  | .str s => jsonDumpStr s

/-- `json.dumps(row)` with CPython's default separators:
`\x7b"k1": v1, "k2": v2\x7d`. -/
def jsonDumps (r : Row) : String :=
  "\x7b" ++ String.intercalate ", "
    (r.map (fun kv => jsonDumpStr kv.1 ++ ": " ++ jsonDumpVal kv.2)) ++ "\x7d"

/-- `json.dumps(row).encode('utf-8')` as a byte list.  The ensure_ascii
escaping above makes every character ASCII, so the UTF-8 bytes are exactly
the code points. -/
def jsonBytes (r : Row) : List Nat :=
  (jsonDumps r).toList.map Char.toNat

/-- JSON whitespace bytes (space, tab, newline, carriage return) — exactly the
characters CPython's json decoder skips around and after a document. -/
def isJsonWs (b : Nat) : Bool := b = 32 || b = 9 || b = 10 || b = 13

/-- Drop leading JSON whitespace. -/
def skipWs (bs : List Nat) : List Nat := bs.dropWhile isJsonWs

/-- Hexadecimal digit value of an ASCII byte. -/
def hexVal (b : Nat) : Option Nat :=
  if 48 ≤ b && b ≤ 57 then some (b - 48)
  else if 97 ≤ b && b ≤ 102 then some (b - 87)
  else if 65 ≤ b && b ≤ 70 then some (b - 55)
  else Option.none

/-- Prepend one character to the string of a parse result. -/
def consStr (c : Char) (o : Option (String × List Nat)) : Option (String × List Nat) :=
  o.map (fun p => (String.singleton c ++ p.1, p.2))

/-- Parse a JSON string body (the bytes after the opening quote) up to the
closing quote, decoding the standard escapes. -/
def parseStringBody : List Nat → Option (String × List Nat)
  | [] => Option.none
  | 34 :: rest => some ("", rest)
  | 92 :: 34 :: r => consStr '"' (parseStringBody r)
  | 92 :: 92 :: r => consStr '\\' (parseStringBody r)
  | 92 :: 47 :: r => consStr '/' (parseStringBody r)
  | 92 :: 98 :: r => consStr (Char.ofNat 8) (parseStringBody r)
  | 92 :: 102 :: r => consStr (Char.ofNat 12) (parseStringBody r)
  | 92 :: 110 :: r => consStr '\n' (parseStringBody r)
  | 92 :: 114 :: r => consStr '\r' (parseStringBody r)
  | 92 :: 116 :: r => consStr '\t' (parseStringBody r)
  | 92 :: 117 :: h1 :: h2 :: h3 :: h4 :: r =>
    match hexVal h1, hexVal h2, hexVal h3, hexVal h4 with
    | some a, some b, some c, some d =>
      consStr (Char.ofNat (4096 * a + 256 * b + 16 * c + d)) (parseStringBody r)
    | _, _, _, _ => Option.none
  | 92 :: _ => Option.none
  | b :: rest => consStr (Char.ofNat b) (parseStringBody rest)

/-- Consume a run of decimal digits, accumulating their value. -/
def parseDigits : List Nat → Nat → Nat × List Nat
  | [], acc => (acc, [])
  | b :: rest, acc =>
    if 48 ≤ b && b ≤ 57 then parseDigits rest (acc * 10 + (b - 48))
    else (acc, b :: rest)

/-- Parse a JSON integer (optional minus sign, at least one digit). -/
def parseIntVal (bs : List Nat) : Option (PyVal × List Nat) :=
  let p := match bs with
    | 45 :: r => (true, r)
    | _ => (false, bs)
  match p.2 with
  | b :: _ =>
    if 48 ≤ b && b ≤ 57 then
      let d := parseDigits p.2 0
      some (PyVal.int (if p.1 then -(d.1 : Int) else (d.1 : Int)), d.2)
    else Option.none
  | [] => Option.none

/-- Parse one JSON scalar: `null`, `true`, `false`, a string, or an integer —
the value forms this engine's validated rows can contain. -/
def parseScalar (bs : List Nat) : Option (PyVal × List Nat) :=
  match bs with
  | 110 :: 117 :: 108 :: 108 :: r => some (PyVal.none, r)
  | 116 :: 114 :: 117 :: 101 :: r => some (PyVal.bool true, r)
  | 102 :: 97 :: 108 :: 115 :: 101 :: r => some (PyVal.bool false, r)
  | 34 :: r => (parseStringBody r).map (fun p => (PyVal.str p.1, p.2))
  | _ => parseIntVal bs

/-- Parse the members of a JSON object after its opening brace
(`"key": value` pairs separated by commas, closed by the closing brace).
`fuel` bounds the recursion; callers pass the input length, which suffices
since every member consumes at least one byte. -/
def parseMembers : Nat → List Nat → Row → Option (Row × List Nat)
  | 0, _, _ => Option.none
  | fuel + 1, bs, acc =>
    match skipWs bs with
    | 34 :: r =>
      match parseStringBody r with
      | Option.none => Option.none
      | some (key, r1) =>
        match skipWs r1 with
        | 58 :: r2 =>
          match parseScalar (skipWs r2) with
          | Option.none => Option.none
          | some (v, r3) =>
            match skipWs r3 with
            | 44 :: r4 => parseMembers fuel r4 (acc ++ [(key, v)])
            | 125 :: r4 => some (acc ++ [(key, v)], r4)
            | _ => Option.none
        | _ => Option.none
    | _ => Option.none

/-- Parse a JSON object (byte 123 is the opening brace, 125 the closing). -/
def parseObj (bs : List Nat) : Option (Row × List Nat) :=
  match bs with
  | 123 :: r =>
    match skipWs r with
    | 125 :: r1 => some ([], r1)
    | _ => parseMembers (r.length + 1) r []
  | _ => Option.none

/-- Model of `json.loads(data.decode('utf-8'))` on row bytes, for the
flat-object ASCII subset this engine's `json.dumps` emits.  After the object
is parsed, any remaining non-whitespace input raises CPython's
`JSONDecodeError: Extra data`; that error (and every other decode failure)
is an exception propagating out of the caller. -/
def jsonLoads (bs : List Nat) : Except String Row :=
  match parseObj (skipWs bs) with
  | Option.none => Except.error "JSONDecodeError"
  | some (row, rest) =>
    if (skipWs rest).isEmpty then Except.ok row else Except.error "Extra data"

/-- `PAGE_SIZE = 4096` from `page.py`. -/
def PAGE_SIZE : Nat := 4096

/-- `HEADER_SIZE = 12` from `page.py`. -/
def HEADER_SIZE : Nat := 12

/-- `Page` from `page.py`: `page_id`, `num_rows`, `free_space_offset` and the
in-memory `rows` list.  `num_rows` and `free_space_offset` are stored fields
(they can disagree with `rows` if set directly, e.g. by `deserialize`). -/
structure Page where
  page_id : Nat
  num_rows : Nat
  free_space_offset : Nat
  rows : List Row
deriving DecidableEq, Repr

/-- `Page.__init__`: zero rows, free space starting at `HEADER_SIZE`. -/
def Page.init (pid : Nat) : Page :=
  { page_id := pid, num_rows := 0, free_space_offset := HEADER_SIZE, rows := [] }

/-- `Page.can_fit`: the serialized row plus its 4-byte length prefix fits in
`PAGE_SIZE - free_space_offset`.  The subtraction is over `Int`, as in Python,
so an offset beyond `PAGE_SIZE` yields a negative availability. -/
def Page.can_fit (p : Page) (row_data : Row) : Bool :=
  let row_size : Int := (jsonBytes row_data).length + 4
  let available_space : Int := (PAGE_SIZE : Int) - (p.free_space_offset : Int)
  row_size ≤ available_space

/-- `Page.insert_row`: append the row and advance `free_space_offset` by its
serialized length plus 4; fail (page unchanged) if it does not fit.
The Python method mutates and returns a bool; here it returns both. -/
def Page.insert_row (p : Page) (row_data : Row) : Bool × Page :=
  if p.can_fit row_data then
    (true,
     { p with
        rows := p.rows ++ [row_data],
        num_rows := p.num_rows + 1,
        free_space_offset := p.free_space_offset + (jsonBytes row_data).length + 4 })
  else (false, p)

/-- `Page.get_row`: bounds-checked read of a slot. -/
def Page.get_row (p : Page) (row_index : Nat) : Option Row :=
  if row_index < p.rows.length then p.rows.get? row_index else Option.none

/-- The per-row cost used by the free-space accounting: serialized JSON length
plus the 4-byte length prefix. -/
def rowCost (r : Row) : Nat := (jsonBytes r).length + 4

/-- `Page._recalculate_free_space`: `HEADER_SIZE` plus the summed serialized
size (with length prefix) of every current row. -/
def Page.recalculate_free_space (p : Page) : Page :=
  { p with free_space_offset := HEADER_SIZE + (p.rows.map rowCost).sum }

/-- `Page.update_row`: replace the row at `row_index` when the new serialized
size does not exceed the old one, or when `can_fit new_data` holds (free space
for the whole new row plus prefix); then recompute `free_space_offset` from
scratch.  Fails (page unchanged) otherwise. -/
def Page.update_row (p : Page) (row_index : Nat) (new_data : Row) : Bool × Page :=
  if row_index < p.rows.length then
    let old_size := (jsonBytes (p.rows.getD row_index [])).length
    let new_size := (jsonBytes new_data).length
    if new_size ≤ old_size || p.can_fit new_data then
      (true, Page.recalculate_free_space { p with rows := p.rows.set row_index new_data })
    else (false, p)
  else (false, p)

/-- `Page.delete_row`: pop the slot (shifting later slots down), decrement
`num_rows`, recompute `free_space_offset`. -/
def Page.delete_row (p : Page) (row_index : Nat) : Bool × Page :=
  if row_index < p.rows.length then
    (true, Page.recalculate_free_space
      { p with rows := p.rows.eraseIdx row_index, num_rows := p.num_rows - 1 })
  else (false, p)

/-- `struct.pack('I', n)`: four little-endian bytes. -/
def u32le (n : Nat) : List Nat :=
  [n % 256, n / 256 % 256, n / 65536 % 256, n / 16777216 % 256]

/-- `struct.unpack('I', bs)`: requires exactly four bytes (else `struct.error`). -/
def unpackU32 (bs : List Nat) : Except String Nat :=
  match bs with
  | [a, b, c, d] => Except.ok (a + 256 * b + 65536 * c + 16777216 * d)
  | _ => Except.error "struct.error"

/-- Python slice `data[a:b]` for `a ≤ b` (truncating at the end of the list). -/
def pySlice (data : List Nat) (a b : Nat) : List Nat :=
  (data.drop a).take (b - a)

/-- `Page.serialize`: packed header (`page_id`, `num_rows`,
`free_space_offset`), then each row as a 4-byte length prefix followed by its
JSON bytes, zero-padded to `PAGE_SIZE`. -/
def Page.serialize (p : Page) : List Nat :=
  let header := u32le p.page_id ++ u32le p.num_rows ++ u32le p.free_space_offset
  let rows_data := p.rows.foldl
    (fun acc row =>
      let row_json := jsonBytes row
      acc ++ u32le row_json.length ++ row_json) []
  let page_data := header ++ rows_data
  page_data ++ List.replicate (PAGE_SIZE - page_data.length) 0

/-- The row-reading loop of `Page.deserialize`, faithful to the source:
after reading the 4-byte length prefix at `offset` and advancing past it, the
row text is sliced as `data[offset : offset + 4 + row_length]` — four bytes
beyond the row — while `offset` advances by only `row_length`.  Any
`json.loads` failure propagates as the loop's error. -/
def readRowsLoop (data : List Nat) : Nat → Nat → Except String (List Row)
  | 0, _ => Except.ok []
  | n + 1, offset => do
    let row_length ← unpackU32 (pySlice data offset (offset + 4))
    let offset1 := offset + 4
    let row ← jsonLoads (pySlice data offset1 (offset1 + 4 + row_length))
    let rest ← readRowsLoop data n (offset1 + row_length)
    Except.ok (row :: rest)

/-- `Page.deserialize`: unpack the three header fields from the first 12
bytes, then read `num_rows` length-prefixed rows starting at `HEADER_SIZE`.
Exceptions (struct or json errors) propagate to the caller. -/
def Page.deserialize (data : List Nat) : Except String Page := do
  let page_id ← unpackU32 (pySlice data 0 4)
  let num_rows ← unpackU32 (pySlice data 4 8)
  let free_space_offset ← unpackU32 (pySlice data 8 12)
  let rows ← readRowsLoop data num_rows HEADER_SIZE
  Except.ok { page_id := page_id, num_rows := num_rows,
              free_space_offset := free_space_offset, rows := rows }

/-- One mutating `Page` operation.  `applyOp` takes the page state after the
call whether or not the call reported success; a failed call leaves the page
unchanged, so states reachable this way are exactly the states reachable by
sequences of successful operations. -/
inductive PageOp where
  | ins (r : Row)
  | upd (i : Nat) (r : Row)
  | del (i : Nat)

/-- The page state after one operation. -/
def applyOp (p : Page) : PageOp → Page
  | .ins r => (p.insert_row r).2
  | .upd i r => (p.update_row i r).2
  | .del i => (p.delete_row i).2

/-- The page state after a sequence of operations. -/
def applyOps (p : Page) (ops : List PageOp) : Page := ops.foldl applyOp p

/-- The spec's free-space invariant: `free_space_offset` equals `HEADER_SIZE`
plus the summed serialized size (with 4-byte length prefix) of every current
row, and never exceeds `PAGE_SIZE`. -/
def PageInv (p : Page) : Prop :=
  p.free_space_offset = HEADER_SIZE + (p.rows.map rowCost).sum ∧
  p.free_space_offset ≤ PAGE_SIZE

theorem pageInv_init (pid : Nat) : PageInv (Page.init pid) := by
  constructor <;> simp [Page.init, HEADER_SIZE, PAGE_SIZE]

theorem can_fit_le (p : Page) (r : Row) (h : p.can_fit r = true) :
    p.free_space_offset + (jsonBytes r).length + 4 ≤ PAGE_SIZE := by
  simp only [Page.can_fit, decide_eq_true_eq] at h
  have hp : ((PAGE_SIZE : Nat) : Int) = (PAGE_SIZE : Int) := by norm_cast
  omega

theorem pageInv_insert (p : Page) (r : Row) (h : PageInv p) :
    PageInv (p.insert_row r).2 := by
  unfold Page.insert_row
  by_cases hc : p.can_fit r
  · have hb := can_fit_le p r hc
    simp only [hc, if_true]
    refine ⟨?_, ?_⟩
    · simp [h.1, rowCost]
      omega
    · simpa using hb
  · simp only [hc]
    simpa using h

theorem sum_map_set (f : Row → Nat) (l : List Row) (i : Nat) (x : Row)
    (h : i < l.length) :
    ((l.set i x).map f).sum + f (l.getD i []) = (l.map f).sum + f x := by
  induction l generalizing i with
  | nil => simp at h
  | cons a t ih =>
    cases i with
    | zero => simp; omega
    | succ n =>
      simp only [List.set, List.map_cons, List.sum_cons, List.getD_cons_succ]
      have := ih n (by simpa using h)
      omega

theorem sum_map_eraseIdx_le (f : Row → Nat) (l : List Row) (i : Nat) :
    ((l.eraseIdx i).map f).sum ≤ (l.map f).sum := by
  induction l generalizing i with
  | nil => simp [List.eraseIdx]
  | cons a t ih =>
    cases i with
    | zero => simp [List.eraseIdx]
    | succ n =>
      simp only [List.eraseIdx, List.map_cons, List.sum_cons]
      have := ih n
      omega

theorem pageInv_update (p : Page) (i : Nat) (r : Row) (h : PageInv p) :
    PageInv (p.update_row i r).2 := by
  unfold Page.update_row
  by_cases hi : i < p.rows.length
  · set old_size := (jsonBytes (p.rows.getD i [])).length with hold
    set new_size := (jsonBytes r).length with hnew
    by_cases hcond : (new_size ≤ old_size || p.can_fit r) = true
    · simp only [hi, if_true, hcond, Page.recalculate_free_space]
      have hsum := sum_map_set rowCost p.rows i r hi
      refine ⟨rfl, ?_⟩
      show HEADER_SIZE + ((p.rows.set i r).map rowCost).sum ≤ PAGE_SIZE
      rw [Bool.or_eq_true, decide_eq_true_eq] at hcond
      have hcost : rowCost (p.rows.getD i []) = old_size + 4 := rfl
      have hcr : rowCost r = new_size + 4 := rfl
      rcases hcond with hle | hfit
      · have h1 := h.1
        have h2 := h.2
        omega
      · have hb := can_fit_le p r hfit
        have h1 := h.1
        have h2 := h.2
        omega
    · simp only [hi, if_true, hcond]
      simpa using h
  · simp only [hi]
    simpa using h

theorem pageInv_delete (p : Page) (i : Nat) (h : PageInv p) :
    PageInv (p.delete_row i).2 := by
  unfold Page.delete_row
  by_cases hi : i < p.rows.length
  · simp only [hi, if_true, Page.recalculate_free_space]
    have hsum := sum_map_eraseIdx_le rowCost p.rows i
    refine ⟨rfl, ?_⟩
    show HEADER_SIZE + ((p.rows.eraseIdx i).map rowCost).sum ≤ PAGE_SIZE
    have h1 := h.1
    have h2 := h.2
    omega
  · simp only [hi]
    simpa using h

theorem pageInv_applyOps (p : Page) (ops : List PageOp) (h : PageInv p) :
    PageInv (applyOps p ops) := by
  induction ops generalizing p with
  | nil => exact h
  | cons op t ih =>
    cases op with
    | ins r => exact ih _ (pageInv_insert p r h)
    | upd i r => exact ih _ (pageInv_update p i r h)
    | del i => exact ih _ (pageInv_delete p i h)

/-- C7: for every page reachable from a fresh page by any sequence of
insert/update/delete operations (successful ones included — failed calls leave
the page unchanged), `free_space_offset` equals `HEADER_SIZE` plus the sum
over all present rows of serialized length + 4-byte prefix, and never exceeds
`PAGE_SIZE`. -/
theorem c7_free_space_invariant (pid : Nat) (ops : List PageOp) :
    (applyOps (Page.init pid) ops).free_space_offset
      = HEADER_SIZE + ((applyOps (Page.init pid) ops).rows.map rowCost).sum ∧
    (applyOps (Page.init pid) ops).free_space_offset ≤ PAGE_SIZE :=
  pageInv_applyOps (Page.init pid) ops (pageInv_init pid)

/-- A page holding the single row `\x7b"id": 1\x7d`, built by a successful
`insert_row` on a fresh page. -/
def c1page : Page := ((Page.init 0).insert_row [("id", PyVal.int 1)]).2

set_option maxRecDepth 100000 in
/-- C1: the round-trip claim fails on the source.  The page built from one
valid row that fits is inserted successfully, but `deserialize (serialize p)`
raises `json.JSONDecodeError: Extra data` instead of reproducing the page:
the row slice `data[offset : offset + 4 + row_length]` takes four bytes too
many, so the row's JSON text is followed by padding/next-prefix garbage. -/
theorem c1_deserialize_raises_extra_data :
    ((Page.init 0).insert_row [("id", PyVal.int 1)]).1 = true ∧
    Page.deserialize c1page.serialize = Except.error "Extra data" :=
  ⟨rfl, rfl⟩

/-- `can_fit` holds whenever the row plus prefix fits below `PAGE_SIZE`. -/
theorem can_fit_of_le (p : Page) (r : Row)
    (h : p.free_space_offset + (jsonBytes r).length + 4 ≤ PAGE_SIZE) :
    p.can_fit r = true := by
  simp only [Page.can_fit, decide_eq_true_eq]
  have hp : ((PAGE_SIZE : Nat) : Int) = (PAGE_SIZE : Int) := by norm_cast
  omega

/-- Inserting `k` copies of the 8-byte row `\x7b"a": 1\x7d` (12 bytes each
with its length prefix) into a page already holding `j` copies fills the page
arithmetically, as long as everything fits. -/
theorem c9_insert_chain (k : Nat) :
    ∀ j, HEADER_SIZE + j * 12 + k * 12 ≤ PAGE_SIZE →
      applyOps
        { page_id := 0, num_rows := j,
          free_space_offset := HEADER_SIZE + j * 12,
          rows := List.replicate j [("a", PyVal.int 1)] }
        (List.replicate k (PageOp.ins [("a", PyVal.int 1)])) =
      { page_id := 0, num_rows := j + k,
        free_space_offset := HEADER_SIZE + (j + k) * 12,
        rows := List.replicate (j + k) [("a", PyVal.int 1)] } := by
  induction k with
  | zero => intro j h; simp [applyOps]
  | succ n ih =>
    intro j h
    have hlen : (jsonBytes [("a", PyVal.int 1)]).length = 8 := rfl
    have hfit : Page.can_fit
        { page_id := 0, num_rows := j,
          free_space_offset := HEADER_SIZE + j * 12,
          rows := List.replicate j [("a", PyVal.int 1)] } [("a", PyVal.int 1)] = true := by
      apply can_fit_of_le
      simp only [hlen]
      have hps : PAGE_SIZE = 4096 := rfl
      have hhs : HEADER_SIZE = 12 := rfl
      omega
    have happ : applyOp
        { page_id := 0, num_rows := j,
          free_space_offset := HEADER_SIZE + j * 12,
          rows := List.replicate j [("a", PyVal.int 1)] }
        (PageOp.ins [("a", PyVal.int 1)]) =
        { page_id := 0, num_rows := j + 1,
          free_space_offset := HEADER_SIZE + (j + 1) * 12,
          rows := List.replicate (j + 1) [("a", PyVal.int 1)] } := by
      simp only [applyOp, Page.insert_row, hfit, if_true, hlen]
      congr 1
      · omega
      · exact (List.replicate_succ' _ _).symm
    have hidx : j + (n + 1) = (j + 1) + n := by omega
    rw [List.replicate_succ, hidx]
    show applyOps (applyOp _ (PageOp.ins [("a", PyVal.int 1)])) _ = _
    rw [happ]
    exact ih (j + 1) (by omega)

/-- A page holding 340 copies of the 8-byte row `\x7b"a": 1\x7d` (12 bytes
each with prefix): `free_space_offset = 4092`, leaving 4 free bytes.  It is
reachable from a fresh page by 340 successful inserts
(see the first conjunct of the counterexample below). -/
def c9page : Page :=
  { page_id := 0, num_rows := 340, free_space_offset := 4092,
    rows := List.replicate 340 [("a", PyVal.int 1)] }

set_option maxRecDepth 4000 in
/-- C9 counterexample: `c9page` is reached from a fresh page by 340 successful
inserts; slot 0 holds an 8-byte row; the 10-byte replacement grows it by
2 bytes while 4 bytes of free space remain, so under the claim ("enough free
space to accommodate the growth — the increase in serialized size") the
update should succeed; `update_row` returns `False` because the source
instead requires `can_fit(new_data)`: room for the entire new row plus its
4-byte prefix. -/
theorem c9_growth_fits_yet_update_fails :
    applyOps (Page.init 0) (List.replicate 340 (PageOp.ins [("a", PyVal.int 1)]))
      = c9page ∧
    0 < c9page.rows.length ∧
    (jsonBytes (c9page.rows.getD 0 [])).length
      < (jsonBytes [("a", PyVal.int 100)]).length ∧
    (jsonBytes [("a", PyVal.int 100)]).length
        - (jsonBytes (c9page.rows.getD 0 [])).length
      ≤ PAGE_SIZE - c9page.free_space_offset ∧
    (c9page.update_row 0 [("a", PyVal.int 100)]).1 = false :=
  ⟨c9_insert_chain 340 0 (by decide), by decide, by decide, by decide, by decide⟩

/-- C9 (amended): `update_row` at a valid slot succeeds exactly when the new
serialized size does not exceed the old one, or `can_fit` holds for the new
row (free space for the entire new serialized row plus its 4-byte length
prefix — not merely the growth); on success the row is replaced in place and
`free_space_offset` is recomputed from all current rows. -/
theorem c9_update_row_characterization (p : Page) (i : Nat) (r : Row)
    (hi : i < p.rows.length) :
    ((p.update_row i r).1 = true ↔
      (jsonBytes r).length ≤ (jsonBytes (p.rows.getD i [])).length ∨
      p.can_fit r = true) ∧
    ((p.update_row i r).1 = true →
      (p.update_row i r).2.rows = p.rows.set i r ∧
      (p.update_row i r).2.free_space_offset
        = HEADER_SIZE + ((p.rows.set i r).map rowCost).sum) := by
  unfold Page.update_row
  by_cases hcond : ((jsonBytes r).length ≤ (jsonBytes (p.rows.getD i [])).length
      || p.can_fit r) = true
  · simp only [hi, if_true, hcond, Page.recalculate_free_space]
    rw [Bool.or_eq_true, decide_eq_true_eq] at hcond
    exact ⟨iff_of_true trivial hcond, fun _ => ⟨trivial, trivial⟩⟩
  · simp only [hi, if_true, hcond, Bool.false_eq_true, if_false]
    rw [Bool.or_eq_true, decide_eq_true_eq] at hcond
    exact ⟨⟨fun hfalse => by simp at hfalse, fun hor => absurd hor hcond⟩,
           fun hfalse => by simp at hfalse⟩

/-- A fresh page holding one small row, for instantiating the amended C9
characterization. -/
def c9small : Page := ((Page.init 0).insert_row [("a", PyVal.int 1)]).2

/-- Witness for the amended C9 theorem at a concrete page, slot and row. -/
theorem c9_update_row_characterization_witness :
    (c9small.update_row 0 [("a", PyVal.int 2)]).1 = true :=
  (c9_update_row_characterization c9small 0 [("a", PyVal.int 2)]
      (by decide)).1.mpr (Or.inl (by decide))

/-- `FileManager.read_page` from `file_manager.py`, over a byte-level file
image (`Option.none` = the file does not exist).  Returns `None` when the file
is missing, when `offset + PAGE_SIZE` exceeds the file length, or when fewer
than `PAGE_SIZE` bytes come back from the read; otherwise deserializes the
`PAGE_SIZE` bytes at `page_id * PAGE_SIZE`.  The method's `try/except` turns
any exception from `struct.unpack`/`json.loads` into `None` (`toOption`). -/
def FileManager.read_page (file : Option (List Nat)) (page_id : Nat) : Option Page :=
  match file with
  | Option.none => Option.none
  | some data =>
    if page_id * PAGE_SIZE + PAGE_SIZE > data.length then Option.none
    else if (pySlice data (page_id * PAGE_SIZE) (page_id * PAGE_SIZE + PAGE_SIZE)).length
        < PAGE_SIZE then Option.none
    else (Page.deserialize
      (pySlice data (page_id * PAGE_SIZE) (page_id * PAGE_SIZE + PAGE_SIZE))).toOption

/-- C8: `read_page` is absent (never a raised error) for a missing file and
for an offset past the end of the file; otherwise it returns the page
deserialized from the `PAGE_SIZE` bytes at offset `page_id * PAGE_SIZE`
(whenever that deserialization succeeds; a deserialization exception is also
converted to absent by the method's exception handler). -/
theorem c8_read_page_absent_or_page (file : List Nat) (page_id : Nat) (p : Page) :
    FileManager.read_page Option.none page_id = Option.none ∧
    (page_id * PAGE_SIZE + PAGE_SIZE > file.length →
      FileManager.read_page (some file) page_id = Option.none) ∧
    (page_id * PAGE_SIZE + PAGE_SIZE ≤ file.length →
      Page.deserialize (pySlice file (page_id * PAGE_SIZE) (page_id * PAGE_SIZE + PAGE_SIZE))
          = Except.ok p →
      FileManager.read_page (some file) page_id = some p) := by
  refine ⟨rfl, ?_, ?_⟩
  · intro h
    simp only [FileManager.read_page]
    rw [if_pos h]
  · intro h hdes
    have hlen : (pySlice file (page_id * PAGE_SIZE) (page_id * PAGE_SIZE + PAGE_SIZE)).length
        = PAGE_SIZE := by
      simp only [pySlice, List.length_take, List.length_drop]
      omega
    simp only [FileManager.read_page]
    rw [if_neg (by omega), if_neg (by omega), hdes]
    rfl

/-- Witness for C8: a one-page file of zero bytes yields the empty page with
id 0 (all header fields zero, no rows). -/
theorem c8_read_page_witness :
    FileManager.read_page (some (List.replicate 4096 0)) 0 =
      some { page_id := 0, num_rows := 0, free_space_offset := 0, rows := [] } :=
  (c8_read_page_absent_or_page (List.replicate 4096 0) 0
      { page_id := 0, num_rows := 0, free_space_offset := 0, rows := [] }).2.2
    (by rw [List.length_replicate]; decide) (by rfl)

/-- `Column` from `table.py`: name, declared type and the three flags. -/
structure Column where
  name : String
  data_type : String
  primary_key : Bool
  unique : Bool
  nullable : Bool
deriving DecidableEq, Repr

/-- `Column.__init__`: `nullable` is forced to `False` when `primary_key` is
set, and a data type outside `VALID_TYPES` raises `ValueError`. -/
def Column.init (name data_type : String) (primary_key unique nullable : Bool) :
    Except String Column :=
  if data_type = "INTEGER" || data_type = "TEXT" || data_type = "REAL"
      || data_type = "BOOLEAN" then
    Except.ok { name := name, data_type := data_type, primary_key := primary_key,
                unique := unique,
                nullable := if primary_key then false else nullable }
  else Except.error "Invalid data type"

/-- `Column.validate_value`: `None` is accepted iff the column is nullable;
otherwise an `isinstance` check against the declared type.  Python's `bool`
is a subclass of `int`, so booleans pass the INTEGER check, and the REAL
check accepts `(int, float)`. -/
def Column.validate_value (c : Column) (value : PyVal) : Bool :=
  match value with
  | .none => c.nullable
  | v =>
    if c.data_type = "INTEGER" then pyIsInstInt v
    else if c.data_type = "TEXT" then pyIsInstStr v
    else if c.data_type = "REAL" then pyIsInstIntOrFloat v
    else if c.data_type = "BOOLEAN" then pyIsInstBool v
    else false

/-- C10: for every INTEGER column, `validate_value` accepts every Python
boolean (bool is a subclass of int), and for every REAL column it accepts
every integer (the check is `isinstance(value, (int, float))`). -/
theorem c10_validate_value_subclass (cInt cReal : Column) (b : Bool) (n : Int)
    (hI : cInt.data_type = "INTEGER") (hR : cReal.data_type = "REAL") :
    cInt.validate_value (PyVal.bool b) = true ∧
    cReal.validate_value (PyVal.int n) = true := by
  constructor
  · simp [Column.validate_value, hI, pyIsInstInt]
  · simp [Column.validate_value, hR, pyIsInstInt, pyIsInstIntOrFloat]

/-- Witness for C10 at concrete columns and values. -/
theorem c10_validate_value_subclass_witness :
    (Column.mk "id" "INTEGER" true false false).validate_value (PyVal.bool true) = true ∧
    (Column.mk "score" "REAL" false false true).validate_value (PyVal.int 5) = true :=
  c10_validate_value_subclass (Column.mk "id" "INTEGER" true false false)
    (Column.mk "score" "REAL" false false true) true 5 rfl rfl

/-- A Python runtime fault raised (not returned) by the table layer. -/
inductive PyErr where
  | attributeError (attr : String)
  | nameError (n : String)
  | keyError (k : String)
deriving DecidableEq, Repr

/-- Reading an object attribute that `__init__` may never have assigned:
`none` models the absent attribute, whose access raises `AttributeError`. -/
def getAttr {α : Type} (o : Option α) (attr : String) : Except PyErr α :=
  match o with
  | some v => Except.ok v
  | Option.none => Except.error (PyErr.attributeError attr)

/-- The primary-key index: a dict from primary-key value to
`(page_id, row_index)`. -/
abbrev IndexMap := List (PyVal × Nat × Nat)

/-- Python `d.get(k)` on the primary-key index. -/
def idxGet (m : IndexMap) (k : PyVal) : Option (Nat × Nat) :=
  (m.find? (fun e => e.1 = k)).map (fun e => e.2)

/-- Python `d[k] = v`: replace in place, else append. -/
def idxSet (m : IndexMap) (k : PyVal) (v : Nat × Nat) : IndexMap :=
  if m.any (fun e => e.1 = k) then m.map (fun e => if e.1 = k then (k, v) else e)
  else m ++ [(k, v)]

/-- The unique-value indexes: a dict from column name to a set of values. -/
abbrev UniqueIndexes := List (String × List PyVal)

/-- Python `d[col]` on the unique-index dict (`KeyError` when absent). -/
def uidxGet (m : UniqueIndexes) (col : String) : Except PyErr (List PyVal) :=
  match m.find? (fun e => e.1 = col) with
  | some e => Except.ok e.2
  | Option.none => Except.error (PyErr.keyError col)

/-- Python `d[col] = s` on the unique-index dict. -/
def uidxSet (m : UniqueIndexes) (col : String) (s : List PyVal) : UniqueIndexes :=
  if m.any (fun e => e.1 = col) then m.map (fun e => if e.1 = col then (col, s) else e)
  else m ++ [(col, s)]

/-- Python `set.add`. -/
def setAdd (s : List PyVal) (v : PyVal) : List PyVal :=
  if s.any (fun x => x = v) then s else s ++ [v]

/-- An ideal page store standing for the `FileManager` boundary at the table
layer: `read_page` hands back the page object last written at a page id.
Byte-level round-trip concerns are treated separately at the `Page` layer
(`serialize`/`deserialize`, claim C1 territory). -/
abbrev Store := List (Nat × Page)

/-- The store's `read_page`. -/
def Store.read_page (s : Store) (page_id : Nat) : Option Page :=
  (s.find? (fun e => e.1 = page_id)).map (fun e => e.2)

/-- The store's `write_page` (returns the success flag and the new store). -/
def Store.write_page (s : Store) (p : Page) : Bool × Store :=
  (true,
   if s.any (fun e => e.1 = p.page_id)
   then s.map (fun e => if e.1 = p.page_id then (p.page_id, p) else e)
   else s ++ [(p.page_id, p)])

/-- The `Table` object's state from `table.py`.  The two index attributes are
`Option`-wrapped because the source's `__init__` only *announces* them in a
comment ("In-memory index for primary keys and unique constraints") and never
assigns them: `none` is the unassigned attribute, whose access raises
`AttributeError`. -/
structure TableState where
  name : String
  columns : List Column
  primary_key_cols : List String
  unique_cols : List String
  primary_key_index : Option IndexMap
  unique_indexes : Option UniqueIndexes
  next_page_id : Nat
deriving DecidableEq, Repr

/-- The attribute assignments performed by `Table.__init__`: the schema, the
derived primary-key and unique column-name lists, `next_page_id = 0`, and —
faithful to the source — no assignment to `primary_key_index` or
`unique_indexes`. -/
def Table.initState (name : String) (cols : List Column) : TableState :=
  { name := name, columns := cols,
    primary_key_cols := (cols.filter (fun c => c.primary_key)).map (fun c => c.name),
    unique_cols := (cols.filter (fun c => c.unique || c.primary_key)).map (fun c => c.name),
    primary_key_index := Option.none,
    unique_indexes := Option.none,
    next_page_id := 0 }

/-- Modelled from the spec: `_load_indexes` calls
`self._get_primary_key_value(row)` but that method is absent from the source
under `src/`.  Spec §4.3 says the rebuild keys `primary_key_index` by the
row's primary-key value exactly as `insert_row` would, so the helper reads
the row's value for the first declared primary-key column (`KeyError` when
the row lacks it). -/
def Table.get_primary_key_value (t : TableState) (row : Row) : Except PyErr PyVal :=
  match t.primary_key_cols with
  | [] => Except.error (PyErr.keyError "primary key")
  | c :: _ =>
    match rowGet row c with
    | some v => Except.ok v
    | Option.none => Except.error (PyErr.keyError c)

/-- The inner `for col_name in self.unique_cols` loop of `_load_indexes`,
run for the single row the method reaches: adds `row[col_name]` to
`self.unique_indexes[col_name]` (the source's guard
`if col_name in self.unique_cols` is a tautology on the iterated list, kept
here verbatim). -/
def loadUniqueLoop (t : TableState) (row : Row) : List String → Except PyErr TableState
  | [] => Except.ok t
  | col :: rest =>
    if col ∈ t.unique_cols then do
      let uis ← getAttr t.unique_indexes "unique_indexes"
      let s ← uidxGet uis col
      let v ← match rowGet row col with
              | some v => Except.ok v
              | Option.none => Except.error (PyErr.keyError col)
      loadUniqueLoop { t with unique_indexes := some (uidxSet uis col (setAdd s v)) }
        row rest
    else loadUniqueLoop t row rest

/-- `Table._load_indexes`, faithful to the source's control flow: the first
loop advances `next_page_id` over every scanned page; the row loop is NOT
nested inside it — it iterates `page.rows` of the loop variable `page` left
over from the first loop (the last scanned page; `NameError` when nothing was
scanned), and its body ends in `return True, None`, so at most the FIRST row
of that last page is ever indexed.  `scanned` is the list of pages yielded by
`file_manger.scan_all_pages`; the Python return value is
`Option (Bool × Option String)` (`none` for the implicit `return None`). -/
def Table.load_indexes (t0 : TableState) (scanned : List Page) :
    Except PyErr (TableState × Option (Bool × Option String)) :=
  let npid := scanned.foldl (fun acc p => max acc (p.page_id + 1)) t0.next_page_id
  let t := { t0 with next_page_id := npid }
  match scanned.getLast? with
  | Option.none => Except.error (PyErr.nameError "page")
  | some page =>
    match page.rows with
    | [] => Except.ok (t, Option.none)
    | row :: _ => do
      let t1 ←
        if t.primary_key_cols.isEmpty then Except.ok t
        else do
          let pk ← Table.get_primary_key_value t row
          let idx ← getAttr t.primary_key_index "primary_key_index"
          let idx1 := idxSet idx pk (page.page_id, 0)
          Except.ok { t with primary_key_index := some idx1 }
      let t2 ← loadUniqueLoop t1 row t.unique_cols
      Except.ok (t2, some (true, Option.none))

/-- `Table.__init__`: assign the schema attributes, then rebuild indexes when
the table file already exists (`scanned` is what `scan_all_pages` would
yield); the rebuild's return value is discarded, its exceptions propagate. -/
def Table.init (name : String) (cols : List Column) (file_exists : Bool)
    (scanned : List Page) : Except PyErr TableState :=
  if file_exists then
    (Table.load_indexes (Table.initState name cols) scanned).map (fun r => r.1)
  else Except.ok (Table.initState name cols)

/-- `Table.select_by_primary_key`, faithful to the source: `None` immediately
when no primary key is declared; otherwise reads `self.primary_key_index`
(`AttributeError` when the attribute was never assigned), resolves the
location, reads the page via `self.file_manger.read_page` (the ideal store),
and returns `page.get_row(row_index)` — `None` when the page or slot is
missing. -/
def Table.select_by_primary_key (t : TableState) (store : Store) (pk_value : PyVal) :
    Except PyErr (Option Row) :=
  if t.primary_key_cols.isEmpty then Except.ok Option.none
  else do
    let idx ← getAttr t.primary_key_index "primary_key_index"
    match idxGet idx pk_value with
    | Option.none => Except.ok Option.none
    | some loc =>
      match Store.read_page store loc.1 with
      | Option.none => Except.ok Option.none
      | some page => Except.ok (page.get_row loc.2)

/-- `Table.delete_by_primary_key`, faithful to the source: the "no primary
key" and "not found" failures return `(False, message)`; once a page has been
read, the source tests `if row is None:` — but no local `row` was ever
assigned in this method, so that line raises `NameError` and nothing after it
(slot deletion, write-back, index maintenance) is reachable. -/
def Table.delete_by_primary_key (t : TableState) (store : Store) (pk_value : PyVal) :
    Except PyErr (TableState × Store × Bool × Option String) :=
  if t.primary_key_cols.isEmpty then
    Except.ok (t, store, false, some "Table has no primary key")
  else do
    let idx ← getAttr t.primary_key_index "primary_key_index"
    match idxGet idx pk_value with
    | Option.none => Except.ok (t, store, false, some "Row not found")
    | some loc =>
      match Store.read_page store loc.1 with
      | Option.none => Except.ok (t, store, false, some "page not found")
      | some _page => Except.error (PyErr.nameError "row")

/-- `Table.update_by_primary_key`, faithful to the source: the "no primary
key" and "Row not found" failures return `(False, message)`; past the index
lookup the source reads `self.file_manager` — but `__init__` stored the file
manager under `self.file_manger` (note the spelling) — so the access raises
`AttributeError` before any page is read, any merge happens, or any check of
the primary-key column could run (the method body contains no check that
`updates` leaves the primary-key value unchanged). -/
def Table.update_by_primary_key (t : TableState) (pk_value : PyVal) (updates : Row) :
    Except PyErr (TableState × Bool × Option String) :=
  if t.primary_key_cols.isEmpty then
    Except.ok (t, false, some "Table has no primary key")
  else do
    let idx ← getAttr t.primary_key_index "primary_key_index"
    match idxGet idx pk_value with
    | Option.none => Except.ok (t, false, some "Row not found")
    | some _loc =>
      let _ := updates
      Except.error (PyErr.attributeError "file_manager")

/-- An `id INTEGER PRIMARY KEY` column (as `Column.__init__` would build it:
`nullable` forced to false by the primary-key flag). -/
def idCol : Column := Column.mk "id" "INTEGER" true false false

/-- A nullable `name TEXT` column. -/
def nameCol : Column := Column.mk "name" "TEXT" false false true

/-- The row `id = 1, name = "Alice"`. -/
def aliceRow : Row := [("id", PyVal.int 1), ("name", PyVal.str "Alice")]

/-- A consistent one-row page holding `aliceRow` at slot 0. -/
def alicePage : Page :=
  { page_id := 0, num_rows := 1, free_space_offset := HEADER_SIZE + rowCost aliceRow,
    rows := [aliceRow] }

/-- A `users(id INTEGER PRIMARY KEY, name TEXT)` table state in which the
index attributes exist and record `aliceRow` at `(0, 0)` — the state the
spec's incremental maintenance would produce after one insert.  (The faithful
`Table.initState` never creates the index attributes at all; this generous
state lets each method's own defect decide the outcome.) -/
def usersTable : TableState :=
  { Table.initState "users" [idCol, nameCol] with
      primary_key_index := some [(PyVal.int 1, (0, 0))],
      unique_indexes := some [("id", [PyVal.int 1])],
      next_page_id := 1 }

/-- The one-page store behind `usersTable`. -/
def usersStore : Store := [(0, alicePage)]

/-- C5: the claim says `select_by_primary_key` returns absent without raising
whenever no primary key is declared or the value is not indexed, including on
a freshly constructed table.  On a fresh table with no primary key that
holds (third conjunct), but on a fresh table that declares one the code
raises `AttributeError`: `__init__` never assigns `self.primary_key_index`
(first two conjuncts). -/
theorem c5_select_fresh_table_raises :
    Table.init "users" [idCol, nameCol] false []
      = Except.ok (Table.initState "users" [idCol, nameCol]) ∧
    Table.select_by_primary_key (Table.initState "users" [idCol, nameCol]) []
        (PyVal.int 1)
      = Except.error (PyErr.attributeError "primary_key_index") ∧
    Table.select_by_primary_key (Table.initState "logs" [nameCol]) [] (PyVal.int 1)
      = Except.ok Option.none :=
  ⟨rfl, rfl, rfl⟩

/-- C4: the claim's two failure branches do return `(False, message)` (second
and third conjuncts), but the claimed happy path — delete the slot, persist,
remove the index entries, return `(True, None)` — is unreachable: as soon as
the page is read the method evaluates `if row is None:` with no local `row`
ever assigned, raising `NameError` (first conjunct). -/
theorem c4_delete_raises_name_error :
    Table.delete_by_primary_key usersTable usersStore (PyVal.int 1)
      = Except.error (PyErr.nameError "row") ∧
    Table.delete_by_primary_key (Table.initState "logs" [nameCol]) [] (PyVal.int 1)
      = Except.ok (Table.initState "logs" [nameCol], [], false,
                   some "Table has no primary key") ∧
    Table.delete_by_primary_key usersTable usersStore (PyVal.int 2)
      = Except.ok (usersTable, usersStore, false, some "Row not found") :=
  ⟨rfl, rfl, rfl⟩

/-- C3: the claim says an update merges the partial updates, persists, fixes
the unique indexes, and rejects a primary-key change with `(False, error)`.
The code does none of this: once the location is found it reads
`self.file_manager`, an attribute that `__init__` stored as
`self.file_manger`, so both a primary-key-changing update and a plain
column update raise `AttributeError` (and no primary-key-immutability check
exists anywhere in the method). -/
theorem c3_update_raises_attribute_error :
    Table.update_by_primary_key usersTable (PyVal.int 1) [("id", PyVal.int 2)]
      = Except.error (PyErr.attributeError "file_manager") ∧
    Table.update_by_primary_key usersTable (PyVal.int 1)
        [("name", PyVal.str "Carol")]
      = Except.error (PyErr.attributeError "file_manager") ∧
    Table.update_by_primary_key usersTable (PyVal.int 3) [("name", PyVal.str "Carol")]
      = Except.ok (usersTable, false, some "Row not found") :=
  ⟨rfl, rfl, rfl⟩

/-- A one-row page with id 1, for the C2 scan. -/
def c2page0 : Page :=
  { page_id := 0, num_rows := 1,
    free_space_offset := HEADER_SIZE + rowCost [("id", PyVal.int 1)],
    rows := [[("id", PyVal.int 1)]] }

/-- A two-row page with ids 2 and 3, for the C2 scan. -/
def c2page1 : Page :=
  { page_id := 1, num_rows := 2,
    free_space_offset := HEADER_SIZE + 2 * rowCost [("id", PyVal.int 2)],
    rows := [[("id", PyVal.int 2)], [("id", PyVal.int 3)]] }

/-- A `nums(id INTEGER PRIMARY KEY)` state whose index attributes exist and
are empty — what a correct `__init__` would hand to `_load_indexes`. -/
def c2start : TableState :=
  { Table.initState "nums" [idCol] with
      primary_key_index := some [],
      unique_indexes := some [("id", [])] }

/-- C2: rebuilding over a scan of two pages holding rows 1, 2, 3 must index
all three rows.  The code advances `next_page_id` to 2 correctly, but indexes
only row 2 — the first row of the last scanned page — because the row loop
sits outside the page loop and its body ends in `return True, None` (first
conjunct: rows 1 and 3 are absent from the rebuilt index).  On the faithful
construction state the rebuild cannot even run: `primary_key_index` was never
assigned, so `Table.__init__` over the existing file raises `AttributeError`
(second conjunct). -/
theorem c2_load_indexes_last_page_first_row_only :
    (Table.load_indexes c2start [c2page0, c2page1]
      = Except.ok ({ c2start with
                      next_page_id := 2,
                      primary_key_index := some [(PyVal.int 2, (1, 0))],
                      unique_indexes := some [("id", [PyVal.int 2])] },
                   some (true, Option.none))) ∧
    idxGet [(PyVal.int 2, (1, 0))] (PyVal.int 1) = Option.none ∧
    idxGet [(PyVal.int 2, (1, 0))] (PyVal.int 3) = Option.none ∧
    Table.init "nums" [idCol] true [c2page0, c2page1]
      = Except.error (PyErr.attributeError "primary_key_index") :=
  ⟨rfl, rfl, rfl, rfl⟩

/-- Modelled from the spec: whether candidate value `v` for unique column
`col` already exists in the corresponding index (§4.3 `validate_row`): the
primary-key index for the primary-key column, the per-column unique-value set
otherwise.  Per §3 the indexes exist from construction; the model reads them
with `getD` (empty when unassigned). -/
def uniqueCollision (t : TableState) (col : String) (v : PyVal) : Bool :=
  if t.primary_key_cols.contains col then
    (idxGet (t.primary_key_index.getD []) v).isSome
  else
    match (t.unique_indexes.getD []).find? (fun e => e.1 = col) with
    | some e => e.2.any (fun x => x = v)
    | Option.none => false

/-- Modelled from the spec: `Table.validate_row` is absent from the source
under `src/`.  §4.3: every declared column must be present with a value
matching its declared type (or null, only if nullable); unknown columns are
rejected; for each unique column (including the primary key) the candidate
value must not already exist in the corresponding index. -/
def Table.validate_row (t : TableState) (row : Row) : Bool × Option String :=
  if row.any (fun kv => !(t.columns.any (fun c => c.name = kv.1))) then
    (false, some "Unknown column")
  else if t.columns.any (fun c =>
      match rowGet row c.name with
      | Option.none => true
      | some v => !(c.validate_value v)) then
    (false, some "Type validation failed")
  else
    match t.unique_cols.find? (fun col =>
        match rowGet row col with
        | some v => uniqueCollision t col v
        | Option.none => false) with
    | some col =>
      if t.primary_key_cols.contains col then (false, some "Duplicate primary key")
      else (false, some "Duplicate unique value")
    | Option.none => (true, Option.none)

/-- Modelled from the spec: one step of the index maintenance after a
successful insert — add the row's value for one unique column to that
column's unique-value set. -/
def addUnique (row : Row) (acc : TableState) (col : String) : TableState :=
  match rowGet row col with
  | some v =>
    let uis := acc.unique_indexes.getD []
    let s := match uis.find? (fun e => e.1 = col) with
             | some e => e.2
             | Option.none => []
    { acc with unique_indexes := some (uidxSet uis col (setAdd s v)) }
  | Option.none => acc

/-- Modelled from the spec: after a successful placement and write, record
`(page_id, row_index)` in `primary_key_index` keyed by the row's primary-key
value (when a primary key is declared) and add the row's values into each
unique index (§4.3 `insert_row`). -/
def finishInsert (t : TableState) (store : Store) (row : Row)
    (page_id row_index : Nat) : TableState × Store × Bool × Option String :=
  let t1 :=
    match t.primary_key_cols with
    | [] => t
    | c :: _ =>
      match rowGet row c with
      | some v =>
        let idx1 := idxSet (t.primary_key_index.getD []) v (page_id, row_index)
        { t with primary_key_index := some idx1 }
      | Option.none => t
  (t.unique_cols.foldl (addUnique row) t1, store, true, Option.none)

/-- Modelled from the spec: `Table.insert_row` is absent from the source
under `src/`.  §4.3: validate the row; if valid, try the most recently
allocated page (the one with id `next_page_id - 1`) when it has capacity,
else allocate a new page with `next_page_id` (incrementing the counter);
write the mutated page back; then update both indexes.  A validation failure
returns `(False, reason)` with table and store untouched. -/
def Table.insert_row (t : TableState) (store : Store) (row : Row) :
    TableState × Store × Bool × Option String :=
  match Table.validate_row t row with
  | (false, err) => (t, store, false, err)
  | (true, _) =>
    let target : Option Page :=
      if t.next_page_id = 0 then Option.none
      else match Store.read_page store (t.next_page_id - 1) with
           | some p => if p.can_fit row then some p else Option.none
           | Option.none => Option.none
    match target with
    | some p =>
      finishInsert t (Store.write_page store (p.insert_row row).2).2 row
        p.page_id p.rows.length
    | Option.none =>
      let np := Page.init t.next_page_id
      if np.can_fit row then
        finishInsert { t with next_page_id := t.next_page_id + 1 }
          (Store.write_page store (np.insert_row row).2).2 row np.page_id 0
      else (t, store, false, some "Row too large for a page")

theorem addUnique_next_page_id (row : Row) (acc : TableState) (col : String) :
    (addUnique row acc col).next_page_id = acc.next_page_id := by
  unfold addUnique
  cases rowGet row col <;> rfl

theorem foldl_addUnique_next_page_id (row : Row) (cols : List String) :
    ∀ acc : TableState,
      (cols.foldl (addUnique row) acc).next_page_id = acc.next_page_id := by
  induction cols with
  | nil => intro acc; rfl
  | cons col rest ih =>
    intro acc
    rw [List.foldl_cons, ih, addUnique_next_page_id]

theorem finishInsert_next_page_id (t : TableState) (store : Store) (row : Row)
    (pid ridx : Nat) :
    (finishInsert t store row pid ridx).1.next_page_id = t.next_page_id := by
  show (t.unique_cols.foldl (addUnique row) _).next_page_id = t.next_page_id
  rw [foldl_addUnique_next_page_id]
  rcases t.primary_key_cols with _ | ⟨c, cs⟩
  · rfl
  · rcases h : rowGet row c with _ | v
    · simp only [h]
    · simp only [h]

/-- C6 (spec-modelled): for a table declaring primary-key column `c` (also
its only unique column), `insert_row` (a) rejects a row whose primary-key
value is already indexed with a duplicate-primary-key error, leaving table
and store untouched, provided the row passes the schema checks; (b) places a
valid row in the most recently allocated page (id `next_page_id - 1`) when it
has capacity, leaving `next_page_id` unchanged; (c) otherwise allocates a new
page with the current `next_page_id` and increments the counter. -/
theorem c6_insert_row_spec (t : TableState) (store : Store) (row : Row)
    (c : String) (v : PyVal)
    (hpk : t.primary_key_cols = [c])
    (huniq : t.unique_cols = [c])
    (hv : rowGet row c = some v) :
    ((idxGet (t.primary_key_index.getD []) v).isSome = true →
      row.any (fun kv => !(t.columns.any (fun cc => cc.name = kv.1))) = false →
      t.columns.any (fun cc =>
        match rowGet row cc.name with
        | Option.none => true
        | some w => !(cc.validate_value w)) = false →
      Table.insert_row t store row = (t, store, false, some "Duplicate primary key")) ∧
    (∀ n p, Table.validate_row t row = (true, Option.none) →
      t.next_page_id = n + 1 →
      Store.read_page store n = some p →
      p.can_fit row = true →
      Table.insert_row t store row
        = finishInsert t (Store.write_page store (p.insert_row row).2).2 row
            p.page_id p.rows.length ∧
      (Table.insert_row t store row).1.next_page_id = t.next_page_id) ∧
    (∀ n p, Table.validate_row t row = (true, Option.none) →
      t.next_page_id = n + 1 →
      Store.read_page store n = some p →
      p.can_fit row = false →
      (Page.init t.next_page_id).can_fit row = true →
      Table.insert_row t store row
        = finishInsert { t with next_page_id := t.next_page_id + 1 }
            (Store.write_page store ((Page.init t.next_page_id).insert_row row).2).2 row
            t.next_page_id 0 ∧
      (Table.insert_row t store row).1.next_page_id = t.next_page_id + 1) := by
  refine ⟨?_, ?_, ?_⟩
  · intro hdup h1 h2
    have hcontains : t.primary_key_cols.contains c = true := by
      rw [hpk]; simp
    have hcol : uniqueCollision t c v = true := by
      unfold uniqueCollision
      simp only [hcontains, if_true, hdup]
    have hval : Table.validate_row t row = (false, some "Duplicate primary key") := by
      unfold Table.validate_row
      simp only [h1, h2, Bool.false_eq_true, if_false, huniq, List.find?, hv, hcol,
        hcontains, if_true]
    unfold Table.insert_row
    rw [hval]
  · intro n p hval hnp hread hfit
    have hins : Table.insert_row t store row
        = finishInsert t (Store.write_page store (p.insert_row row).2).2 row
            p.page_id p.rows.length := by
      unfold Table.insert_row
      rw [hval]
      simp only [hnp, Nat.add_sub_cancel, hread, hfit, Nat.succ_ne_zero, if_false,
        if_true, Nat.add_eq_zero, and_false]
    exact ⟨hins, by rw [hins, finishInsert_next_page_id]⟩
  · intro n p hval hnp hread hfit hinitfit
    have hins : Table.insert_row t store row
        = finishInsert { t with next_page_id := t.next_page_id + 1 }
            (Store.write_page store ((Page.init t.next_page_id).insert_row row).2).2 row
            t.next_page_id 0 := by
      unfold Table.insert_row
      rw [hval]
      rw [hnp] at hinitfit
      simp only [Page.init] at hinitfit
      simp only [hnp, Nat.add_sub_cancel, hread, hfit, Bool.false_eq_true,
        Nat.succ_ne_zero, if_false, if_true, Nat.add_eq_zero, and_false, Page.init]
      rw [if_pos hinitfit]
    refine ⟨hins, ?_⟩
    rw [hins, finishInsert_next_page_id]

/-- Witness for C6: on `usersTable` (id 1 already live), inserting a second
row with id 1 fails with the duplicate-primary-key error; a row with id 2
goes into the existing page 0 without allocating a page; and with page 0 full
(`c9page`), a row with id 9 forces a fresh page and `next_page_id` moves from
1 to 2. -/
theorem c6_insert_row_spec_witness :
    Table.insert_row usersTable usersStore [("id", PyVal.int 1), ("name", PyVal.str "Bob")]
      = (usersTable, usersStore, false, some "Duplicate primary key") ∧
    (Table.insert_row usersTable usersStore
        [("id", PyVal.int 2), ("name", PyVal.str "Bob")]).1.next_page_id
      = usersTable.next_page_id ∧
    (Table.insert_row usersTable [(0, c9page)]
        [("id", PyVal.int 9), ("name", PyVal.str "Zoe")]).1.next_page_id
      = usersTable.next_page_id + 1 :=
  ⟨(c6_insert_row_spec usersTable usersStore
      [("id", PyVal.int 1), ("name", PyVal.str "Bob")] "id" (PyVal.int 1)
      rfl rfl rfl).1 rfl rfl rfl,
   ((c6_insert_row_spec usersTable usersStore
      [("id", PyVal.int 2), ("name", PyVal.str "Bob")] "id" (PyVal.int 2)
      rfl rfl rfl).2.1 0 alicePage rfl rfl rfl rfl).2,
   ((c6_insert_row_spec usersTable [(0, c9page)]
      [("id", PyVal.int 9), ("name", PyVal.str "Zoe")] "id" (PyVal.int 9)
      rfl rfl rfl).2.2 0 c9page rfl rfl rfl rfl rfl).2⟩

end SimpleRDBMS
